import Mathlib

/-!
Shallow embedding of `misc/history/run-all-checks.py` (the commit/branch
consistency rule engine and its report aggregator).

Modelling conventions:
* A branch tag extracted from a commit message is `Option String`
  (`none` models Python `None`, returned when the message regex does not match).
* Timestamps are modelled as epoch seconds (`Int`); `datetime` comparison is
  order-isomorphic to epoch-second comparison, which is all the code uses.
* Python exceptions (`TypeError`, `AssertionError`) are modelled by
  `Except String`: a raising execution returns `.error msg` and appends nothing.
* The mutable `rule_violations` defaultdict is modelled by returning the list
  of `(rule, message)` pairs a call appends, and, for the aggregator, by a
  map `String → List String` from rule id to its collected messages.
* `print` calls of the aggregator are modelled as the list of emitted lines.
-/

def MAIN : String := "main"

def LEGACY_BRANCH_NAMES : List String :=
  ["issue329test", "ijcai-2011", "hcea-cleanup", "raz-ipc-integration",
   "emil-new-integration"]

/-- Prefix match for the regex alternative `issue\d+`: the char list starts
with `issue` followed by at least one digit. -/
def matches_issue_number_at_start : List Char → Bool
  | 'i' :: 's' :: 's' :: 'u' :: 'e' :: c :: _ => c.isDigit
  | _ => false

/-- `REGEX_ISSUE_BRANCH.match(s)` as a Boolean: Python `re.match` anchors at
the start only, so it succeeds iff some prefix of `s` matches
`issue\d+|issue329test|ijcai-2011|hcea-cleanup|raz-ipc-integration|emil-new-integration`. -/
def regex_issue_branch_match (s : String) : Bool :=
  matches_issue_number_at_start s.data
    || LEGACY_BRANCH_NAMES.any (fun p => p.data.isPrefixOf s.data)

/-- `TIMESTAMP_LEGACY = convert_to_datetime("2020-07-10 23:59:59 +0200")`,
as epoch seconds: 2020-07-10T21:59:59Z = 1594418399. -/
def TIMESTAMP_LEGACY : Int := 1594418399

def RULE_SINGLE_ROOT : String := "single_root"

def RULE_SINGLE_PARENT : String := "single_parent_on_main_or_same_branch"

def RULE_MERGE_INTO_NEW_BRANCH : String := "merge_into_new_branch"

def RULE_MERGE_FIRST_PARENT_SAME_BRANCH : String := "merge_first_parent_same_branch"

def RULE_MERGE_ISSUE_WITH_ITSELF : String := "merge_issue_branch_with_itself"

def RULE_MERGE_INVALID_BRANCH_INTO_MAIN : String := "merge_invalid_branch_into_main"

def RULE_MERGE_ISSUE_INTO_ISSUE : String := "merge_issue_into_issue"

def ERROR_RULES : List String :=
  [RULE_SINGLE_ROOT, RULE_MERGE_INTO_NEW_BRANCH,
   RULE_MERGE_INVALID_BRANCH_INTO_MAIN, RULE_MERGE_FIRST_PARENT_SAME_BRANCH]

def WARNING_RULES : List String :=
  [RULE_SINGLE_PARENT, RULE_MERGE_ISSUE_WITH_ITSELF, RULE_MERGE_ISSUE_INTO_ISSUE]

/-- A violation appended to `rule_violations`: (rule id, rendered message). -/
abbrev Violation := String × String

/-- Python truthiness used at `parent_branch if parent_branch else "BRANCH UNKNOWN"`:
`None` and the empty string are falsy. -/
def truthy_string_or (p : Option String) (dflt : String) : String :=
  match p with
  | none => dflt
  | some s => if s = "" then dflt else s

/-- `", ".join(parent_branches)` over possibly-`None` items: Python `str.join`
raises `TypeError` when an item is not a string. -/
def seq_tags : List (Option String) → Option (List String)
  | [] => some []
  | none :: _ => none
  | some s :: rest =>
    match seq_tags rest with
    | none => none
    | some ss => some (s :: ss)

/-- `_check_0_parent_consistency`: a root commit must be on `main`. -/
def check_0_parent_consistency (commit_hash commit_branch : String) :
    List Violation :=
  if commit_branch ≠ MAIN then
    [(RULE_SINGLE_ROOT,
      "Commit '" ++ commit_hash ++ "' (" ++ commit_branch ++
        ") has no parent, but is not the root of " ++ MAIN)]
  else []

/-- `_check_1_parent_consistency`: the parent must be on `main` or on the
commit's own branch (`parent_branch != MAIN and parent_branch != commit_branch`;
a `None` parent tag compares unequal to any string). -/
def check_1_parent_consistency (commit_hash commit_branch : String)
    (parent_branch : Option String) : List Violation :=
  if parent_branch ≠ some MAIN ∧ parent_branch ≠ some commit_branch then
    [(RULE_SINGLE_PARENT,
      "Commit '" ++ commit_hash ++ "' (" ++ commit_branch ++
        ") has its parent on a another branch which is not main: '" ++
        truthy_string_or parent_branch "BRANCH UNKNOWN" ++ "'")]
  else []

/-- `_add_violation(rule, message)` inside `_check_2_parent_consistency`:
formats the message with `", ".join(parent_branches)`, which raises
`TypeError` when a parent tag is `None`. -/
def add_violation_2 (first_parent second_parent : Option String)
    (rule : String) (message : String → String) :
    Except String (List Violation) :=
  match seq_tags [first_parent, second_parent] with
  | none =>
    Except.error "TypeError: sequence item: expected str instance, NoneType found"
  | some ps => Except.ok [(rule, message (String.intercalate ", " ps))]

/-- `_check_2_parent_consistency`, including its raising executions:
the final `else` branch runs `assert False, "TODO: continue"`, and the
`main` branch applies `REGEX_ISSUE_BRANCH.match` to a possibly-`None`
second parent. -/
def check_2_parent_consistency (commit_hash commit_branch : String)
    (first_parent second_parent : Option String) :
    Except String (List Violation) :=
  if first_parent ≠ some commit_branch ∧ second_parent ≠ some commit_branch then
    add_violation_2 first_parent second_parent RULE_MERGE_INTO_NEW_BRANCH
      (fun ps => "Commit '" ++ commit_hash ++ "' (" ++ commit_branch ++
        ") creates a new branch by merging " ++ ps ++ ".")
  else if first_parent ≠ some commit_branch then
    add_violation_2 first_parent second_parent RULE_MERGE_FIRST_PARENT_SAME_BRANCH
      (fun ps => "Merge '" ++ commit_hash ++ "' (" ++ commit_branch ++
        ") should have its own branch as first parent (parents: " ++ ps ++ ").")
  else if commit_branch = MAIN then
    -- here `assert first_parent == MAIN` always passes
    match second_parent with
    | none => Except.error "TypeError: expected string or bytes-like object"
    | some sp =>
      if ¬ regex_issue_branch_match sp then
        add_violation_2 first_parent second_parent
          RULE_MERGE_INVALID_BRANCH_INTO_MAIN
          (fun ps => "Commit '" ++ commit_hash ++ "' (" ++ commit_branch ++
            ") merges a forbidden branch into " ++ MAIN ++
            " (parents: " ++ ps ++ ").")
      else Except.ok []
  else
    -- here `assert first_parent == commit_branch` passes, then the source
    -- executes `assert False, "TODO: continue"`
    Except.error "AssertionError: TODO: continue"

/-- The per-commit body of the loop in `check_branch_parent_consistency`
(lines 177-199): the legacy-timestamp guard computes its condition but its
body is `pass  # continue`, so it has no effect; an untagged commit is
skipped; then the 0/1/2-parent check runs (more than 2 parents: nothing). -/
def process_commit (commit_hash : String) (parent_branches : List (Option String))
    (timestamp : Int) (commit_branch : Option String) :
    Except String (List Violation) :=
  let _ := timestamp < TIMESTAMP_LEGACY
  match commit_branch with
  | none => Except.ok []
  | some cb =>
    match parent_branches with
    | [] => Except.ok (check_0_parent_consistency commit_hash cb)
    | [p] => Except.ok (check_1_parent_consistency commit_hash cb p)
    | [p1, p2] => check_2_parent_consistency commit_hash cb p1 p2
    | _ => Except.ok []

/-- The rule ids of a run's outcome: `none` when the run raised. -/
def rulesOf (r : Except String (List Violation)) : Option (List String) :=
  match r with
  | Except.error _ => none
  | Except.ok vs => some (vs.map Prod.fst)

/-- The violations actually appended before the run ended (a raising run
appends nothing in any branch of the source). -/
def violations_emitted (r : Except String (List Violation)) : List Violation :=
  match r with
  | Except.error _ => []
  | Except.ok vs => vs

/-- `sum(len(rule_violations[rule]) for rule in WARNING_RULES)`. -/
def count_warnings (v : String → List String) : Nat :=
  (WARNING_RULES.map (fun rule => (v rule).length)).sum

/-- `sum(len(rule_violations[rule]) for rule in ERROR_RULES)`. -/
def count_errors (v : String → List String) : Nat :=
  (ERROR_RULES.map (fun rule => (v rule).length)).sum

def warning_header (v : String → List String) : String :=
  "Warning: " ++ toString (count_warnings v) ++
    " commit(s) have an undesired parent relationship."

def error_header (v : String → List String) : String :=
  "Error: " ++ toString (count_errors v) ++
    " commit(s) have an prohibited parent relationship."

/-- The lines printed by the warning block (lines 201-207 of the source). -/
def warning_section (v : String → List String) : List String :=
  if count_warnings v > 0 then
    warning_header v ::
      WARNING_RULES.flatMap (fun rule =>
        if (v rule).length > 0 then (v rule).map (fun x => "Warning: " ++ x)
        else [])
  else []

/-- The lines printed by the error block (lines 208-214 of the source). -/
def error_section (v : String → List String) : List String :=
  if count_errors v > 0 then
    error_header v ::
      ERROR_RULES.flatMap (fun rule =>
        if (v rule).length > 0 then (v rule).map (fun x => "Error: " ++ x)
        else [])
  else []

/-- All lines printed by the aggregator, in print order: the source prints
the warning block first (lines 201-207), then the error block (lines 208-214). -/
def report_lines (v : String → List String) : List String :=
  warning_section v ++ error_section v

/-- The Boolean returned by `check_branch_parent_consistency`:
`False` inside `if count_errors > 0`, else `True`. -/
def check_branch_parent_consistency_result (v : String → List String) : Bool :=
  if count_errors v > 0 then false else true

/-- A line of the warning block: the block header, or `"Warning: " ++ x` for a
message `x` collected under a `WARNING_RULES` rule. -/
def is_warning_line (v : String → List String) (l : String) : Prop :=
  l = warning_header v ∨
    ∃ rule ∈ WARNING_RULES, ∃ x ∈ v rule, l = "Warning: " ++ x

/-- A line of the error block: the block header, or `"Error: " ++ x` for a
message `x` collected under an `ERROR_RULES` rule. -/
def is_error_line (v : String → List String) (l : String) : Prop :=
  l = error_header v ∨
    ∃ rule ∈ ERROR_RULES, ∃ x ∈ v rule, l = "Error: " ++ x

/-- Concrete violation map for the aggregator: one warning-rule message `"w"`
and one error-rule message `"e"`. -/
def v_mixed : String → List String := fun rule =>
  if rule = RULE_SINGLE_PARENT then ["w"]
  else if rule = RULE_SINGLE_ROOT then ["e"]
  else []

theorem length_check_0 (ch cb : String) :
    (check_0_parent_consistency ch cb).length ≤ 1 := by
  unfold check_0_parent_consistency
  split <;> simp

theorem length_check_1 (ch cb : String) (p : Option String) :
    (check_1_parent_consistency ch cb p).length ≤ 1 := by
  unfold check_1_parent_consistency
  split <;> simp

theorem length_emitted_add_violation_2 (fp sp : Option String) (rule : String)
    (msg : String → String) :
    (violations_emitted (add_violation_2 fp sp rule msg)).length ≤ 1 := by
  unfold add_violation_2
  cases hs : seq_tags [fp, sp] <;> simp [violations_emitted]

theorem length_emitted_check_2 (ch cb : String) (fp sp : Option String) :
    (violations_emitted (check_2_parent_consistency ch cb fp sp)).length ≤ 1 := by
  rcases sp with _ | s <;>
  · unfold check_2_parent_consistency
    repeat' split
    all_goals
      first
        | exact length_emitted_add_violation_2 _ _ _ _
        | simp [violations_emitted]

/-- C6: a zero-parent commit emits the error single_root iff its branch tag is
not main; a zero-parent commit tagged main yields no violation. -/
theorem c6_single_root_iff_not_main (ch : String) (t : Int) (cb : String) :
    rulesOf (process_commit ch [] t (some cb)) =
      some (if cb ≠ MAIN then [RULE_SINGLE_ROOT] else []) := by
  by_cases h : cb = MAIN <;>
    simp [process_commit, check_0_parent_consistency, rulesOf, h]

/-- C4: a two-parent commit tagged main with first parent main emits no
violation iff the second parent's tag matches the issue-branch regex
(re.match prefix semantics of issue digits or a legacy name), and emits
merge_invalid_branch_into_main otherwise. -/
theorem c4_main_merge_iff_issue_second (ch : String) (t : Int) (sp : String) :
    rulesOf (process_commit ch [some MAIN, some sp] t (some MAIN)) =
      some (if regex_issue_branch_match sp then []
            else [RULE_MERGE_INVALID_BRANCH_INTO_MAIN]) := by
  by_cases h : regex_issue_branch_match sp <;>
    simp [process_commit, check_2_parent_consistency, add_violation_2,
      seq_tags, rulesOf, h]

/-- C7: a one-parent commit at or after the cutover emits the warning
single_parent_on_main_or_same_branch iff the parent tag is neither main nor
the commit's own tag, and nothing otherwise. -/
theorem c7_single_parent_rule (ch : String) (t : Int) (cb : String)
    (p : Option String) (_ht : TIMESTAMP_LEGACY ≤ t) :
    rulesOf (process_commit ch [p] t (some cb)) =
      some (if p ≠ some MAIN ∧ p ≠ some cb then [RULE_SINGLE_PARENT] else []) := by
  by_cases h : p ≠ some MAIN ∧ p ≠ some cb <;>
    simp [process_commit, check_1_parent_consistency, rulesOf, h]

/-- C7 witness: concrete instance at timestamp exactly the cutover. -/
theorem c7_single_parent_rule_witness :
    rulesOf (process_commit "c" [some "issue2"] 1594418399 (some "issue1")) =
      some (if (some "issue2" : Option String) ≠ some MAIN ∧
              (some "issue2" : Option String) ≠ some "issue1"
            then [RULE_SINGLE_PARENT] else []) :=
  c7_single_parent_rule "c" 1594418399 "issue1" (some "issue2") (by decide)

/-- C8: the engine emits at most one violation per commit; a raising run
appends none. -/
theorem c8_at_most_one_violation (ch : String) (tag : Option String)
    (parents : List (Option String)) (t : Int) :
    (violations_emitted (process_commit ch parents t tag)).length ≤ 1 := by
  rcases tag with _ | cb
  · simp [process_commit, violations_emitted]
  · rcases parents with _ | ⟨p1, _ | ⟨p2, _ | ⟨p3, rest⟩⟩⟩
    · simpa [process_commit, violations_emitted] using length_check_0 ch cb
    · simpa [process_commit, violations_emitted] using length_check_1 ch cb p1
    · simpa [process_commit] using length_emitted_check_2 ch cb p1 p2
    · simp [process_commit, violations_emitted]

/-- C9: the aggregator's Boolean is true iff no violation was collected under
an ERROR rule; warning counts never affect it. -/
theorem c9_pass_iff_no_errors (v : String → List String) :
    check_branch_parent_consistency_result v = true ↔ count_errors v = 0 := by
  unfold check_branch_parent_consistency_result
  split
  · simp only [Bool.false_eq_true, false_iff]
    omega
  · simp only [true_iff]
    omega

/-- C1: the source's legacy-cutover guard reads `pass  # continue`, so the
exemption is not enforced: a one-parent commit and a two-parent commit with
timestamps strictly before the cutover still produce violations. -/
theorem c1_legacy_cutover_not_enforced :
    (0 : Int) < TIMESTAMP_LEGACY ∧
    rulesOf (process_commit "c1" [some "issue2"] 0 (some "issue1")) =
      some [RULE_SINGLE_PARENT] ∧
    rulesOf (process_commit "c2" [some "main", some "release-12.03"] 0 (some "main")) =
      some [RULE_MERGE_INVALID_BRANCH_INTO_MAIN] :=
  ⟨by decide, by decide, by decide⟩

/-- C2: a two-parent commit on a non-main branch whose first parent is on the
same branch reaches `assert False, "TODO: continue"`: the engine raises for
all three second-parent cases instead of emitting the documented warnings. -/
theorem c2_non_main_merge_raises_todo :
    process_commit "c" [some "issue42", some "issue42"] 1600000000 (some "issue42") =
      Except.error "AssertionError: TODO: continue" ∧
    process_commit "c" [some "issue42", some "issue7"] 1600000000 (some "issue42") =
      Except.error "AssertionError: TODO: continue" ∧
    process_commit "c" [some "issue42", some "main"] 1600000000 (some "issue42") =
      Except.error "AssertionError: TODO: continue" :=
  ⟨rfl, rfl, rfl⟩

/-- C3 counterexample: with one warning-rule message "w" and one error-rule
message "e" collected, the aggregator prints the warning line at index 1 and
the error line at index 3, so ERROR violations are not reported before
WARNING violations. -/
theorem c3_error_line_not_before_warning_line :
    report_lines v_mixed =
      ["Warning: 1 commit(s) have an undesired parent relationship.",
       "Warning: w",
       "Error: 1 commit(s) have an prohibited parent relationship.",
       "Error: e"] ∧
    ¬ ((report_lines v_mixed).indexOf "Error: e" <
        (report_lines v_mixed).indexOf "Warning: w") := by
  constructor
  · decide
  · decide

/-- C3 (amended): the aggregator reports all WARNING-rule violations before
all ERROR-rule violations; every line of the first segment is the warning
header or a message of a rule in WARNING_RULES, every line of the second is
the error header or a message of a rule in ERROR_RULES, each segment walking
its declared rule list in order. -/
theorem c3_warnings_reported_before_errors (v : String → List String) :
    report_lines v = warning_section v ++ error_section v ∧
    (∀ l ∈ warning_section v, is_warning_line v l) ∧
    (∀ l ∈ error_section v, is_error_line v l) := by
  refine ⟨rfl, ?_, ?_⟩
  · intro l hl
    unfold warning_section at hl
    unfold is_warning_line
    split at hl
    · rcases List.mem_cons.mp hl with h | h
      · exact Or.inl h
      · rw [List.mem_flatMap] at h
        obtain ⟨rule, hrule, hmem⟩ := h
        refine Or.inr ⟨rule, hrule, ?_⟩
        split at hmem
        · obtain ⟨x, hx, rfl⟩ := List.mem_map.mp hmem
          exact ⟨x, hx, rfl⟩
        · simp at hmem
    · simp at hl
  · intro l hl
    unfold error_section at hl
    unfold is_error_line
    split at hl
    · rcases List.mem_cons.mp hl with h | h
      · exact Or.inl h
      · rw [List.mem_flatMap] at h
        obtain ⟨rule, hrule, hmem⟩ := h
        refine Or.inr ⟨rule, hrule, ?_⟩
        split at hmem
        · obtain ⟨x, hx, rfl⟩ := List.mem_map.mp hmem
          exact ⟨x, hx, rfl⟩
        · simp at hmem
    · simp at hl

/-- C5 counterexample: a two-parent commit on issue1 with an untagged first
parent and second parent main satisfies "neither parent equals the commit's
tag", yet the engine raises in `", ".join(parent_branches)` and emits no
merge_into_new_branch violation. -/
theorem c5_untagged_parent_raises :
    process_commit "c" [none, some "main"] 1600000000 (some "issue1") =
      Except.error "TypeError: sequence item: expected str instance, NoneType found" ∧
    rulesOf (process_commit "c" [none, some "main"] 1600000000 (some "issue1")) ≠
      some [RULE_MERGE_INTO_NEW_BRANCH] :=
  ⟨rfl, by decide⟩

/-- C5 (amended): for a two-parent commit whose parents both carry tags and
neither tag equals the commit's own tag, the engine emits exactly
merge_into_new_branch. -/
theorem c5_merge_into_new_branch_tagged (ch cb : String) (t : Int)
    (p1 p2 : String) (h1 : p1 ≠ cb) (h2 : p2 ≠ cb) :
    rulesOf (process_commit ch [some p1, some p2] t (some cb)) =
      some [RULE_MERGE_INTO_NEW_BRANCH] := by
  simp [process_commit, check_2_parent_consistency, add_violation_2, seq_tags,
    rulesOf, h1, h2]

/-- C5 witness: the amended theorem at commit tag issue1 with parents main and
release-12.03. -/
theorem c5_merge_into_new_branch_tagged_witness :
    rulesOf (process_commit "c" [some "main", some "release-12.03"] 0 (some "issue1")) =
      some [RULE_MERGE_INTO_NEW_BRANCH] :=
  c5_merge_into_new_branch_tagged "c" "issue1" 0 "main" "release-12.03"
    (by decide) (by decide)

/-- C10: a two-parent commit tagged main, first parent main, second parent
untagged: `REGEX_ISSUE_BRANCH.match(None)` raises TypeError, so the engine is
not total over untagged second parents. -/
theorem c10_untagged_second_parent_raises :
    process_commit "c" [some MAIN, none] 1600000000 (some MAIN) =
      Except.error "TypeError: expected string or bytes-like object" := rfl
